import Mathlib

/-!
Shallow embedding of the goal-decomposition core of AI-Goal-Mentor:
the entity model from `models.py` (Subtask / Task / Subgoal / Goal, their
constructors, factories, completion percentages, status recomputation,
dict serialization, legacy flattening) and the decomposition pipeline from
`langgraph_decomposer.py` (parse node, per-subgoal task-generation loop,
conditional edge, finalize node, tree visualization).

Modelling conventions:
* fresh UUIDs (`str(uuid.uuid4())`) are passed in as explicit `fresh` string
  arguments;
* `datetime` values are modelled by their ISO-8601 strings, since
  `datetime.fromisoformat` and `datetime.isoformat` are mutually inverse;
* Python floats are modelled by `Rat` (the percentage arithmetic of the
  source is exact except for float representation);
* the external LLM plus JSON decoding is modelled per stage by an
  `Except`/`Option`-valued parameter (service error or malformed response
  on the error side, the decoded field map on the success side);
* Python dicts read with `.get` are modelled by structures whose optional
  slots are `Option`-typed.
-/

namespace AIGoalMentor

/-- Python truthiness coercion `x or fresh` for an optional string:
`None` and `""` are falsy and are replaced by `fresh`.  Used by the
constructors in `models.py` (`subtask_id or str(uuid.uuid4())`,
`due or "None"`, ...). -/
def pyOrS (x : Option String) (fresh : String) : String :=
  match x with
  | none => fresh
  | some s => if s = "" then fresh else s

/-- `models.Subtask`: smallest unit of work within a Task. -/
structure Subtask where
  id : String
  parent_task_id : String
  description : String
  done : Bool
deriving DecidableEq

/-- `Subtask.__init__(description, parent_task_id, done=False, subtask_id=None)`;
`fresh` models the freshly drawn `str(uuid.uuid4())`. -/
def Subtask.init (description : String) (parent_task_id : String) (done : Bool)
    (subtask_id : Option String) (fresh : String) : Subtask :=
  { id := pyOrS subtask_id fresh
    parent_task_id := parent_task_id
    description := description
    done := done }

/-- The nested key-value shape written by `Subtask.to_dict`.  The `id` slot is
`Option`-typed because `Subtask.from_dict` reads it with `data.get("id")`,
and `done` because it is read with `data.get("done", False)`. -/
structure SubtaskDict where
  id : Option String
  parent_task_id : String
  description : String
  done : Option Bool
deriving DecidableEq

/-- `Subtask.to_dict`. -/
def Subtask.to_dict (st : Subtask) : SubtaskDict :=
  { id := some st.id
    parent_task_id := st.parent_task_id
    description := st.description
    done := some st.done }

/-- `Subtask.from_dict`. -/
def Subtask.from_dict (d : SubtaskDict) (fresh : String) : Subtask :=
  Subtask.init d.description d.parent_task_id (d.done.getD false) d.id fresh

/-- `models.Task`: individual task within a Subgoal. -/
structure Task where
  id : String
  parent_subgoal_id : String
  parent_goal_id : String
  task : String
  due : String
  started : Bool
  done : Bool
  subtasks : List Subtask
  counted : Bool
  estimated_minutes : Option Int
deriving DecidableEq

/-- `Task.__init__`: note `due = due or "None"` (missing / null / empty due is
coerced to the sentinel string `"None"`) and `subtasks = subtasks or []`
(an empty list is falsy but coincides with the default, so `getD` is
faithful). -/
def Task.init (task : String) (parent_subgoal_id : String) (parent_goal_id : String)
    (due : Option String) (started : Bool) (done : Bool)
    (subtasks : Option (List Subtask)) (counted : Bool)
    (estimated_minutes : Option Int) (task_id : Option String) (fresh : String) : Task :=
  { id := pyOrS task_id fresh
    parent_subgoal_id := parent_subgoal_id
    parent_goal_id := parent_goal_id
    task := task
    due := pyOrS due "None"
    started := started
    done := done
    subtasks := subtasks.getD []
    counted := counted
    estimated_minutes := estimated_minutes }

/-- `Task.add_subtask(description)`: returns the updated task and the new
subtask (the source mutates in place and returns the subtask). -/
def Task.add_subtask (t : Task) (description : String) (fresh : String) : Task × Subtask :=
  let st := Subtask.init description t.id false none fresh
  ({ t with subtasks := t.subtasks ++ [st] }, st)

/-- `Task.get_completion_percentage`: what % of subtasks are done. -/
def Task.get_completion_percentage (t : Task) : Rat :=
  if t.subtasks.isEmpty then (if t.done then 100 else 0)
  else (((t.subtasks.filter (fun st => st.done)).length : Rat) / (t.subtasks.length : Rat)) * 100

/-- The nested key-value shape written by `Task.to_dict`; slots read by
`Task.from_dict` via `.get` are `Option`-typed. -/
structure TaskDict where
  id : Option String
  parent_subgoal_id : String
  parent_goal_id : String
  task : String
  due : Option String
  started : Option Bool
  done : Option Bool
  subtasks : Option (List SubtaskDict)
  counted : Option Bool
  estimated_minutes : Option Int
deriving DecidableEq

/-- `Task.to_dict`. -/
def Task.to_dict (t : Task) : TaskDict :=
  { id := some t.id
    parent_subgoal_id := t.parent_subgoal_id
    parent_goal_id := t.parent_goal_id
    task := t.task
    due := some t.due
    started := some t.started
    done := some t.done
    subtasks := some (t.subtasks.map Subtask.to_dict)
    counted := some t.counted
    estimated_minutes := t.estimated_minutes }

/-- `Task.from_dict`. -/
def Task.from_dict (d : TaskDict) (fresh : String) : Task :=
  Task.init d.task d.parent_subgoal_id d.parent_goal_id d.due
    (d.started.getD false) (d.done.getD false)
    (some ((d.subtasks.getD []).map (fun sd => Subtask.from_dict sd fresh)))
    (d.counted.getD false) d.estimated_minutes d.id fresh

/-- `models.Subgoal`: mid-level goal component, groups related tasks. -/
structure Subgoal where
  id : String
  parent_goal_id : String
  title : String
  level : Int
  tasks : List Task
  status : String
deriving DecidableEq

/-- `Subgoal.__init__(title, parent_goal_id, level=1, tasks=None,
status="active", subgoal_id=None)`. -/
def Subgoal.init (title : String) (parent_goal_id : String) (level : Int)
    (tasks : Option (List Task)) (status : String)
    (subgoal_id : Option String) (fresh : String) : Subgoal :=
  { id := pyOrS subgoal_id fresh
    parent_goal_id := parent_goal_id
    title := title
    level := level
    tasks := tasks.getD []
    status := status }

/-- `Subgoal.add_task(task_description, due=None, estimated_minutes=None)`:
returns the updated subgoal and the new task. -/
def Subgoal.add_task (sg : Subgoal) (task_description : String)
    (due : Option String) (estimated_minutes : Option Int) (fresh : String) : Subgoal × Task :=
  let t := Task.init task_description sg.id sg.parent_goal_id due false false none false
    estimated_minutes none fresh
  ({ sg with tasks := sg.tasks ++ [t] }, t)

/-- `Subgoal.get_completion_percentage`: what % of tasks are done (by their
own `done` flag). -/
def Subgoal.get_completion_percentage (sg : Subgoal) : Rat :=
  if sg.tasks.isEmpty then 0
  else (((sg.tasks.filter (fun t => t.done)).length : Rat) / (sg.tasks.length : Rat)) * 100

/-- `Subgoal.update_status`: no tasks, "active"; all tasks done, "completed";
any task started, "active"; otherwise "active". -/
def Subgoal.update_status (sg : Subgoal) : Subgoal :=
  if sg.tasks.isEmpty then { sg with status := "active" }
  else if sg.tasks.all (fun t => t.done) then { sg with status := "completed" }
  else if sg.tasks.any (fun t => t.started) then { sg with status := "active" }
  else { sg with status := "active" }

/-- The nested key-value shape written by `Subgoal.to_dict`. -/
structure SubgoalDict where
  id : Option String
  parent_goal_id : String
  title : String
  level : Option Int
  tasks : Option (List TaskDict)
  status : Option String
deriving DecidableEq

/-- `Subgoal.to_dict`. -/
def Subgoal.to_dict (sg : Subgoal) : SubgoalDict :=
  { id := some sg.id
    parent_goal_id := sg.parent_goal_id
    title := sg.title
    level := some sg.level
    tasks := some (sg.tasks.map Task.to_dict)
    status := some sg.status }

/-- `Subgoal.from_dict`. -/
def Subgoal.from_dict (d : SubgoalDict) (fresh : String) : Subgoal :=
  Subgoal.init d.title d.parent_goal_id (d.level.getD 1)
    (some ((d.tasks.getD []).map (fun td => Task.from_dict td fresh)))
    (d.status.getD "active") d.id fresh

/-- `models.Goal`: top-level goal containing subgoals and metadata.
`created_at` carries the ISO-8601 string of the datetime. -/
structure Goal where
  id : String
  title : String
  description : String
  subgoals : List Subgoal
  status : String
  category : String
  created_at : String
  confidence : Int
  rationale : String
deriving DecidableEq

/-- `Goal.__init__(title, description="", subgoals=None, status="active",
category="Academics", created_at=None, goal_id=None, confidence=5,
rationale="")`.  `created_at or datetime.now()` uses `getD`, not `pyOrS`,
because a datetime object is always truthy; `now` models `datetime.now()`. -/
def Goal.init (title : String) (description : String)
    (subgoals : Option (List Subgoal)) (status : String) (category : String)
    (created_at : Option String) (goal_id : Option String)
    (confidence : Int) (rationale : String) (fresh : String) (now : String) : Goal :=
  { id := pyOrS goal_id fresh
    title := title
    description := description
    subgoals := subgoals.getD []
    status := status
    category := category
    created_at := created_at.getD now
    confidence := confidence
    rationale := rationale }

/-- `Goal.add_subgoal(title, level=1)`: returns the updated goal and the new
subgoal. -/
def Goal.add_subgoal (g : Goal) (title : String) (level : Int) (fresh : String) : Goal × Subgoal :=
  let sg := Subgoal.init title g.id level none "active" none fresh
  ({ g with subgoals := g.subgoals ++ [sg] }, sg)

/-- `Goal.get_completion_percentage`: overall completion over all tasks of
all subgoals. -/
def Goal.get_completion_percentage (g : Goal) : Rat :=
  if g.subgoals.isEmpty then 0
  else
    let total_tasks : Nat := (g.subgoals.map (fun sg => sg.tasks.length)).sum
    if total_tasks = 0 then 0
    else
      let completed_tasks : Nat :=
        (g.subgoals.map (fun sg => (sg.tasks.filter (fun t => t.done)).length)).sum
      ((completed_tasks : Rat) / (total_tasks : Rat)) * 100

/-- `Goal.get_total_tasks`. -/
def Goal.get_total_tasks (g : Goal) : Nat :=
  (g.subgoals.map (fun sg => sg.tasks.length)).sum

/-- `Goal.get_completed_tasks`. -/
def Goal.get_completed_tasks (g : Goal) : Nat :=
  (g.subgoals.map (fun sg => (sg.tasks.filter (fun t => t.done)).length)).sum

/-- `Goal.update_status`: recomputes every child subgoal first, then: no
subgoals, "active"; all child subgoals "completed", "completed"; any child
"active", "active"; otherwise "active". -/
def Goal.update_status (g : Goal) : Goal :=
  if g.subgoals.isEmpty then { g with status := "active" }
  else if (g.subgoals.map Subgoal.update_status).all (fun sg => sg.status = "completed") then
    { g with subgoals := g.subgoals.map Subgoal.update_status, status := "completed" }
  else if (g.subgoals.map Subgoal.update_status).any (fun sg => sg.status = "active") then
    { g with subgoals := g.subgoals.map Subgoal.update_status, status := "active" }
  else
    { g with subgoals := g.subgoals.map Subgoal.update_status, status := "active" }

/-- The nested key-value shape written by `Goal.to_dict`; `created_at` is the
ISO string (`self.created_at.isoformat()`), `Option`-typed since
`Goal.from_dict` tests for the key's presence. -/
structure GoalDict where
  id : Option String
  title : String
  description : Option String
  subgoals : Option (List SubgoalDict)
  status : Option String
  category : Option String
  created_at : Option String
  confidence : Option Int
  rationale : Option String
deriving DecidableEq

/-- `Goal.to_dict`. -/
def Goal.to_dict (g : Goal) : GoalDict :=
  { id := some g.id
    title := g.title
    description := some g.description
    subgoals := some (g.subgoals.map Subgoal.to_dict)
    status := some g.status
    category := some g.category
    created_at := some g.created_at
    confidence := some g.confidence
    rationale := some g.rationale }

/-- `Goal.from_dict`.  `datetime.fromisoformat(data["created_at"]) if
"created_at" in data else None` is the identity on the ISO-string model. -/
def Goal.from_dict (d : GoalDict) (fresh : String) (now : String) : Goal :=
  Goal.init d.title (d.description.getD "")
    (some ((d.subgoals.getD []).map (fun sd => Subgoal.from_dict sd fresh)))
    (d.status.getD "active") (d.category.getD "Academics")
    d.created_at d.id (d.confidence.getD 5) (d.rationale.getD "") fresh now

/-- One record of the legacy flat-task representation; the source's keys
`_goal_id`, `_subgoal_id`, `_task_id` are spelled `legacy_goal_id`,
`legacy_subgoal_id`, `legacy_task_id` (Lean identifiers cannot start with
an underscore). -/
structure LegacyTask where
  task : String
  due : String
  started : Bool
  done : Bool
  subtasks : List String
  counted : Bool
  legacy_goal_id : String
  legacy_subgoal_id : String
  legacy_task_id : String
deriving DecidableEq

/-- `flatten_goal_to_legacy_tasks(goal)`. -/
def flatten_goal_to_legacy_tasks (g : Goal) : List LegacyTask :=
  g.subgoals.flatMap (fun sg =>
    sg.tasks.map (fun t =>
      { task := sg.title ++ ": " ++ t.task
        due := t.due
        started := t.started
        done := t.done
        subtasks := t.subtasks.map (fun st => st.description)
        counted := t.counted
        legacy_goal_id := g.id
        legacy_subgoal_id := sg.id
        legacy_task_id := t.id }))

/-! ## Decomposition pipeline (`langgraph_decomposer.py`) -/

/-- One entry of `state["subgoals_list"]`: a subgoal stub dict read with
`.get("title", ...)` / `.get("description", ...)`. -/
structure SubgoalStub where
  title : Option String
  description : Option String
deriving DecidableEq

/-- One entry of a generated task list: a task dict read in `finalize` with
`.get("task", "Unnamed task")`, `.get("estimated_minutes", 10)`,
`.get("subtasks", [])`. -/
structure TaskData where
  task : Option String
  estimated_minutes : Option Int
  subtasks : Option (List String)
deriving DecidableEq

/-- The `DecompositionState` TypedDict threaded between the LangGraph nodes.
`generated_tasks` is the string-keyed dict `{"subgoal_i": [tasks]}`,
modelled as an association list. -/
structure DecompositionState where
  goal_text : String
  category : String
  user_feedback : List String
  parsed_goal_title : String
  parsed_goal_description : String
  subgoals_list : List SubgoalStub
  current_subgoal_index : Nat
  generated_tasks : List (String × List TaskData)
  confidence : Int
  rationale : String
  final_goal : Option Goal
  error : String
deriving DecidableEq

/-- Python dict assignment `d[k] = v` on an association list: replaces the
binding of `k` if present, otherwise appends it. -/
def dictSet (k : String) (v : List TaskData) :
    List (String × List TaskData) → List (String × List TaskData)
  | [] => [(k, v)]
  | (k0, v0) :: rest => if k0 = k then (k, v) :: rest else (k0, v0) :: dictSet k v rest

/-- Python dict lookup `d.get(k)` on an association list. -/
def dictGet (k : String) : List (String × List TaskData) → Option (List TaskData)
  | [] => none
  | (k0, v0) :: rest => if k0 = k then some v0 else dictGet k rest

/-- The key `f"subgoal_{index}"` used by the task-generation and finalize
nodes. -/
def subgoalKey (i : Nat) : String := "subgoal_" ++ toString i

/-- Python `str.strip()`: drop whitespace from both ends. -/
def pyStrip (s : String) : String :=
  String.mk (((s.toList.dropWhile Char.isWhitespace).reverse.dropWhile
    Char.isWhitespace).reverse)

/-- The opening-brace character, written by code point. -/
def openBraceChar : Char := Char.ofNat 123

/-- The closing-brace character, by code point. -/
def closeBraceChar : Char := Char.ofNat 125

/-- The JSON-extraction slice used verbatim by every stage:
`raw[raw.index(openbrace) : raw.rindex(closebrace) + 1]`.  `none` models the
`ValueError` raised by `str.index` / `str.rindex` when the brace is absent;
when both braces occur, the slice runs from the first opening brace to the
last closing brace (and, as in Python, is empty when the last closing brace
comes first). -/
def find_json_slice (raw : String) : Option String :=
  let cs := raw.toList
  match cs.findIdx? (fun c => c == openBraceChar),
        cs.reverse.findIdx? (fun c => c == closeBraceChar) with
  | some i, some jr =>
      let j := cs.length - 1 - jr
      some (String.mk ((cs.drop i).take (j + 1 - i)))
  | _, _ => none

/-- The decoded JSON object of the parse stage, fields read with
`data.get("title", ...)`, `.get("description", "")`, `.get("confidence", 0)`,
`.get("rationale", "")`. -/
structure ParseData where
  title : Option String
  description : Option String
  confidence : Option Int
  rationale : Option String
deriving DecidableEq

/-- `parse_goal_node`: Node 1.  `svc` models `llm.invoke(prompt).content`
(`Except.error` is a service error), `jparse` models `json.loads` plus field
typing on the extracted slice (`none` is malformed JSON).  On any failure the
node falls back to title = raw goal text, description = "", records an error
note and leaves confidence/rationale untouched; it never raises. -/
def parse_goal_node (svc : Except String String) (jparse : String → Option ParseData)
    (s : DecompositionState) : DecompositionState :=
  match svc with
  | Except.error e =>
      { s with parsed_goal_title := s.goal_text, parsed_goal_description := ""
               error := "Parse error: " ++ e }
  | Except.ok raw =>
      match find_json_slice (pyStrip raw) with
      | none =>
          { s with parsed_goal_title := s.goal_text, parsed_goal_description := ""
                   error := "Parse error: substring not found" }
      | some json_text =>
          match jparse json_text with
          | none =>
              { s with parsed_goal_title := s.goal_text, parsed_goal_description := ""
                       error := "Parse error: invalid JSON" }
          | some data =>
              { s with parsed_goal_title := data.title.getD s.goal_text
                       parsed_goal_description := data.description.getD ""
                       confidence := data.confidence.getD 0
                       rationale := data.rationale.getD "" }

/-- The decoded JSON object of the subgoal-split stage. -/
structure SubgoalsData where
  subgoals : Option (List SubgoalStub)
  confidence : Option Int
  rationale : Option String
deriving DecidableEq

/-- `decompose_to_subgoals_node`: Node 2.  On success stores the stub list,
resets the cursor to 0 and empties the generated-task dict; on failure sets
the stub list to `[]` and records an error note. -/
def decompose_to_subgoals_node (resp : Except String SubgoalsData)
    (s : DecompositionState) : DecompositionState :=
  match resp with
  | Except.ok data =>
      { s with subgoals_list := data.subgoals.getD []
               current_subgoal_index := 0
               generated_tasks := []
               confidence := data.confidence.getD 0
               rationale := data.rationale.getD "" }
  | Except.error e =>
      { s with subgoals_list := [], error := "Subgoal decomposition error: " ++ e }

/-- The decoded JSON object of the task-generation stage. -/
structure TaskGenData where
  tasks : Option (List TaskData)
  confidence : Option Int
  rationale : Option String
deriving DecidableEq

/-- `generate_tasks_for_subgoal_node`: Node 3, called repeatedly.  `resp i`
models the whole try-block outcome (LLM call, JSON extraction, decoding) for
subgoal index `i`.  Guard: if the cursor is past the stub list, return the
state unchanged.  On success, store the task list under `subgoal_<cursor>`
and advance the cursor; on failure, record an error note and leave
everything else (cursor included) unchanged. -/
def generate_tasks_for_subgoal_node (resp : Nat → Except String TaskGenData)
    (s : DecompositionState) : DecompositionState :=
  if s.subgoals_list.length ≤ s.current_subgoal_index then s
  else
    match resp s.current_subgoal_index with
    | Except.ok data =>
        { s with
          generated_tasks :=
            dictSet (subgoalKey s.current_subgoal_index) (data.tasks.getD []) s.generated_tasks
          confidence := data.confidence.getD 0
          rationale := data.rationale.getD ""
          current_subgoal_index := s.current_subgoal_index + 1 }
    | Except.error e => { s with error := "Task generation error: " ++ e }

/-- `should_continue_task_generation`: the conditional edge out of the
task-generation node. -/
def should_continue_task_generation (s : DecompositionState) : String :=
  if s.current_subgoal_index < s.subgoals_list.length then "continue" else "finalize"

/-- The compiled graph's loop through the `generate_tasks` node: run the node,
evaluate the conditional edge on the result, loop on `"continue"` and stop on
`"finalize"` (the state then flows to the finalize node).  `fuel` bounds the
number of node invocations so the model stays total; `none` means the fuel
ran out, i.e. the loop did not stop within `fuel` invocations.  The returned
`Nat` counts the invocations that passed the cursor guard (the loop-body
iterations of the source). -/
def runTaskLoop (resp : Nat → Except String TaskGenData) :
    Nat → DecompositionState → Option (DecompositionState × Nat)
  | 0, _ => none
  | fuel + 1, s =>
    if should_continue_task_generation (generate_tasks_for_subgoal_node resp s) = "continue" then
      match runTaskLoop resp fuel (generate_tasks_for_subgoal_node resp s) with
      | none => none
      | some (t, k) =>
          some (t, if s.current_subgoal_index < s.subgoals_list.length then k + 1 else k)
    else
      some (generate_tasks_for_subgoal_node resp s,
        if s.current_subgoal_index < s.subgoals_list.length then 1 else 0)

/-- Builds one subgoal of the final goal: `goal.add_subgoal(...)` followed by
`subgoal.add_task(...)` and `task.add_subtask(...)` for the generated task
data; the source mutates the freshly appended objects in place, which is
modelled by building each task (then subgoal) completely before appending
it. -/
def finalize_build_subgoal (goal_id : String) (fresh : String) (i : Nat)
    (stub : SubgoalStub) (tasks_data : List TaskData) : Subgoal :=
  let sg := Subgoal.init (stub.title.getD ("Subgoal " ++ toString (i + 1))) goal_id 1
    none "active" none fresh
  tasks_data.foldl (fun sg td =>
    let t := Task.init (td.task.getD "Unnamed task") sg.id goal_id none false false none false
      (some (td.estimated_minutes.getD 10)) none fresh
    let t2 := (td.subtasks.getD []).foldl (fun t d => (t.add_subtask d fresh).1) t
    { sg with tasks := sg.tasks ++ [t2] }) sg

/-- `finalize_goal_node`: Node 4.  Builds the `Goal` from the pipeline state:
title/description from the parse stage, category from the pipeline input
(`state.get("category", "Academics")`; the key is always present in the
initial state), status `"active"`, confidence/rationale from the last
successful stage, then one subgoal per stub with the tasks stored under its
`subgoal_<i>` key (`.get(subgoal_key, [])`). -/
def finalize_goal_node (fresh : String) (now : String)
    (s : DecompositionState) : DecompositionState :=
  let goal0 := Goal.init s.parsed_goal_title s.parsed_goal_description none "active"
    s.category none none s.confidence s.rationale fresh now
  let goal := s.subgoals_list.enum.foldl (fun g p =>
    let sg := finalize_build_subgoal g.id fresh p.1 p.2
      ((dictGet (subgoalKey p.1) s.generated_tasks).getD [])
    { g with subgoals := g.subgoals ++ [sg] }) goal0
  { s with final_goal := some goal }

/-- The `initial_state` dict built by `decompose_goal_with_langgraph` before
invoking the graph. -/
def initial_state (goal_text : String) (category : String)
    (user_feedback : List String) : DecompositionState :=
  { goal_text := goal_text
    category := category
    confidence := 5
    rationale := ""
    parsed_goal_title := ""
    parsed_goal_description := ""
    subgoals_list := []
    current_subgoal_index := 0
    generated_tasks := []
    user_feedback := user_feedback
    final_goal := none
    error := "" }

/-! ## Visualization (`visualize_goal_tree`) -/

/-- The done/pending marker used for tasks and subtasks. -/
def statusIcon (done : Bool) : String := if done then "✅" else "⬜"

/-- Python f-string interpolation of `task.estimated_minutes`
(`None` prints as `"None"`). -/
def estString (m : Option Int) : String :=
  match m with
  | none => "None"
  | some v => toString v

/-- Python `"%.0f"` formatting of the completion percentage: the nearest
integer, computed as the floor of `q + 1/2` on the reduced fraction
(Python rounds exact halves to even; no claim below evaluates a half). -/
def fmt0f (q : Rat) : String :=
  toString (Int.ediv (2 * q.num + (q.den : Int)) (2 * (q.den : Int)))

/-- The task connector: the terminating box-drawing connector when the task
is the last of its subgoal, the tee connector otherwise. -/
def taskConnector (is_last_task : Bool) : String :=
  if is_last_task then "  │  └─" else "  │  ├─"

/-- The subtask connector, chosen by whether the owning task is last and
whether the subtask is last. -/
def subtaskConnector (is_last_task : Bool) (is_last_subtask : Bool) : String :=
  if is_last_task then
    (if is_last_subtask then "     └─" else "     ├─")
  else
    (if is_last_subtask then "  │  │  └─" else "  │  │  ├─")

/-- The lines emitted for one (1-based `enumerate`) task of a subgoal with
`n` tasks; the model enumerates 0-based, so `j + 1 = n` is `j == len` of the
source. -/
def renderTask (n : Nat) (p : Nat × Task) : List String :=
  let is_last_task := p.1 + 1 == n
  (taskConnector is_last_task ++ " " ++ statusIcon p.2.done ++ " " ++ p.2.task ++ " (" ++
      estString p.2.estimated_minutes ++ "min)") ::
    p.2.subtasks.enum.map (fun q =>
      subtaskConnector is_last_task (q.1 + 1 == p.2.subtasks.length) ++ " " ++
        statusIcon q.2.done ++ " " ++ q.2.description)

/-- The lines emitted for one subgoal: its header line (the connector is the
same for every subgoal, the loop index is unused by the source) followed by
its task lines. -/
def renderSubgoal (sg : Subgoal) : List String :=
  ("  ├─ 🔹 " ++ sg.title ++ " (" ++ toString sg.tasks.length ++ " tasks)") ::
    sg.tasks.enum.flatMap (renderTask sg.tasks.length)

/-- `visualize_goal_tree(goal)` as its list of lines. -/
def visualize_goal_tree_lines (g : Goal) : List String :=
  ("🎯 " ++ g.title ++ " [" ++ fmt0f g.get_completion_percentage ++ "% complete]") ::
    g.subgoals.flatMap renderSubgoal

/-- `visualize_goal_tree(goal)`: the joined multi-line string. -/
def visualize_goal_tree (g : Goal) : String :=
  String.intercalate "\n" (visualize_goal_tree_lines g)

/-! ## Helper lemmas -/

theorem dictGet_dictSet (k k' : String) (v : List TaskData)
    (l : List (String × List TaskData)) :
    dictGet k' (dictSet k v l) = if k = k' then some v else dictGet k' l := by
  induction l with
  | nil =>
    by_cases h : k = k' <;> simp [dictSet, dictGet, h]
  | cons hd tl ih =>
    obtain ⟨k0, v0⟩ := hd
    by_cases h0 : k0 = k
    · subst h0
      by_cases h1 : k0 = k' <;> simp [dictSet, dictGet, h1]
    · by_cases h1 : k0 = k'
      · subst h1
        have hne : ¬ k = k0 := fun h => h0 h.symm
        simp [dictSet, dictGet, h0, hne, ih]
      · simp [dictSet, dictGet, h0, h1, ih]

theorem dictGet_dictSet_isSome (k k' : String) (v : List TaskData)
    (l : List (String × List TaskData))
    (h : (dictGet k' l).isSome = true) :
    (dictGet k' (dictSet k v l)).isSome = true := by
  rw [dictGet_dictSet]
  by_cases hk : k = k' <;> simp [hk, h]

/-- On a successful response with the cursor in range, the task-generation
node stores the decoded task list under the cursor's key, refreshes
confidence/rationale, and advances the cursor. -/
theorem gen_node_ok (resp : Nat → Except String TaskGenData)
    (s : DecompositionState) (d : TaskGenData)
    (hlt : s.current_subgoal_index < s.subgoals_list.length)
    (hok : resp s.current_subgoal_index = Except.ok d) :
    generate_tasks_for_subgoal_node resp s =
      { s with
        generated_tasks :=
          dictSet (subgoalKey s.current_subgoal_index) (d.tasks.getD []) s.generated_tasks
        confidence := d.confidence.getD 0
        rationale := d.rationale.getD ""
        current_subgoal_index := s.current_subgoal_index + 1 } := by
  unfold generate_tasks_for_subgoal_node
  rw [if_neg (by omega), hok]

/-- On a failed response with the cursor in range, the task-generation node
only records the error note. -/
theorem gen_node_err (resp : Nat → Except String TaskGenData)
    (s : DecompositionState) (e : String)
    (hlt : s.current_subgoal_index < s.subgoals_list.length)
    (herr : resp s.current_subgoal_index = Except.error e) :
    generate_tasks_for_subgoal_node resp s =
      { s with error := "Task generation error: " ++ e } := by
  unfold generate_tasks_for_subgoal_node
  rw [if_neg (by omega), herr]

theorem should_continue_eq_finalize_iff (s : DecompositionState) :
    should_continue_task_generation s = "finalize" ↔
      s.subgoals_list.length ≤ s.current_subgoal_index := by
  unfold should_continue_task_generation
  by_cases h : s.current_subgoal_index < s.subgoals_list.length
  · rw [if_pos h]
    constructor
    · intro hc; exact absurd hc (by decide)
    · intro hle; omega
  · rw [if_neg h]
    constructor
    · intro _; omega
    · intro _; rfl

/-- When every response succeeds, the loop stops with its fuel to spare:
starting `m` positions before the end of the stub list, exactly `m` guarded
iterations run, the final cursor sits at the end of the (unchanged) stub
list, previously stored keys survive, and every index from the start cursor
to the end has a stored task list. -/
theorem runTaskLoop_all_ok (resp : Nat → Except String TaskGenData)
    (hok : ∀ i, ∃ d, resp i = Except.ok d) :
    ∀ (m : Nat) (s : DecompositionState),
      s.subgoals_list.length = s.current_subgoal_index + m →
      ∃ t, runTaskLoop resp (m + 1) s = some (t, m) ∧
        t.current_subgoal_index = t.subgoals_list.length ∧
        t.subgoals_list = s.subgoals_list ∧
        (∀ k, (dictGet k s.generated_tasks).isSome = true →
          (dictGet k t.generated_tasks).isSome = true) ∧
        (∀ i, s.current_subgoal_index ≤ i → i < s.subgoals_list.length →
          (dictGet (subgoalKey i) t.generated_tasks).isSome = true) := by
  intro m
  induction m with
  | zero =>
    intro s hlen
    have hge : s.subgoals_list.length ≤ s.current_subgoal_index := by omega
    have hnode : generate_tasks_for_subgoal_node resp s = s := by
      unfold generate_tasks_for_subgoal_node
      rw [if_pos hge]
    have hfin : should_continue_task_generation s = "finalize" :=
      (should_continue_eq_finalize_iff s).mpr hge
    have hnc : ¬ (should_continue_task_generation s = "continue") := by
      rw [hfin]; decide
    refine ⟨s, ?_, by omega, rfl, fun k h => h, fun i h1 h2 => absurd h2 (by omega)⟩
    unfold runTaskLoop
    rw [hnode, if_neg hnc, if_neg (by omega)]
  | succ n ih =>
    intro s hlen
    have hlt : s.current_subgoal_index < s.subgoals_list.length := by omega
    obtain ⟨d, hd⟩ := hok s.current_subgoal_index
    have hnode := gen_node_ok resp s d hlt hd
    set s1 : DecompositionState :=
      { s with
        generated_tasks :=
          dictSet (subgoalKey s.current_subgoal_index) (d.tasks.getD []) s.generated_tasks
        confidence := d.confidence.getD 0
        rationale := d.rationale.getD ""
        current_subgoal_index := s.current_subgoal_index + 1 } with hs1
    have hlist1 : s1.subgoals_list = s.subgoals_list := rfl
    have hidx1 : s1.current_subgoal_index = s.current_subgoal_index + 1 := rfl
    have hgt1 : s1.generated_tasks =
        dictSet (subgoalKey s.current_subgoal_index) (d.tasks.getD []) s.generated_tasks := rfl
    have hlen1 : s1.subgoals_list.length = s1.current_subgoal_index + n := by
      rw [hlist1, hidx1]; omega
    obtain ⟨t, hrun, ht1, ht2, ht3, ht4⟩ := ih s1 hlen1
    have hkey : (dictGet (subgoalKey s.current_subgoal_index) s1.generated_tasks).isSome = true := by
      rw [hgt1, dictGet_dictSet]
      simp
    refine ⟨t, ?_, ht1, by rw [ht2, hlist1], ?_, ?_⟩
    · -- the loop equation at fuel n + 2
      unfold runTaskLoop
      rw [hnode]
      by_cases hzero : n = 0
      · subst hzero
        have hge1 : s1.subgoals_list.length ≤ s1.current_subgoal_index := by omega
        have hfin := (should_continue_eq_finalize_iff s1).mpr hge1
        have hnc : ¬ (should_continue_task_generation s1 = "continue") := by
          rw [hfin]; decide
        have hone : runTaskLoop resp 1 s1 = some (s1, 0) := by
          unfold runTaskLoop
          have hnode1 : generate_tasks_for_subgoal_node resp s1 = s1 := by
            unfold generate_tasks_for_subgoal_node
            rw [if_pos hge1]
          rw [hnode1, if_neg hnc, if_neg (by omega)]
        rw [hone] at hrun
        simp only [Option.some.injEq, Prod.mk.injEq] at hrun
        rw [if_neg hnc, if_pos hlt, hrun.1]
      · have hn0 : 0 < n := Nat.pos_of_ne_zero hzero
        have hlt1 : s1.current_subgoal_index < s1.subgoals_list.length := by omega
        have hcont : should_continue_task_generation s1 = "continue" := by
          unfold should_continue_task_generation
          rw [if_pos hlt1]
        rw [if_pos hcont]
        simp only [hrun]
        rw [if_pos hlt]
    · intro k hk
      refine ht3 k ?_
      rw [hgt1]
      exact dictGet_dictSet_isSome _ _ _ _ hk
    · intro i hi1 hi2
      by_cases hieq : i = s.current_subgoal_index
      · subst hieq
        exact ht3 _ hkey
      · exact ht4 i (by rw [hidx1]; omega) (by rw [hlist1]; exact hi2)

/-- When the response at the current cursor index always fails and the cursor
is in range, the loop never stops: no amount of fuel suffices. -/
theorem runTaskLoop_stuck_on_failure (resp : Nat → Except String TaskGenData) (e : String) :
    ∀ (fuel : Nat) (s : DecompositionState),
      s.current_subgoal_index < s.subgoals_list.length →
      resp s.current_subgoal_index = Except.error e →
      runTaskLoop resp fuel s = none := by
  intro fuel
  induction fuel with
  | zero => intro s _ _; rfl
  | succ n ih =>
    intro s hlt herr
    have hnode := gen_node_err resp s e hlt herr
    set s1 : DecompositionState := { s with error := "Task generation error: " ++ e } with hs1
    have hlt1 : s1.current_subgoal_index < s1.subgoals_list.length := hlt
    have hcont : should_continue_task_generation s1 = "continue" := by
      unfold should_continue_task_generation
      rw [if_pos hlt1]
    unfold runTaskLoop
    rw [hnode, if_pos hcont]
    simp only [ih s1 hlt1 herr]

/-! ## Claims -/

/-- Claim C1: when the subgoal-split stage has stored a stub list of length
`n` (cursor initialized to 0) and every task-generation call succeeds, the
per-subgoal loop executes exactly `n` guarded body iterations and then the
conditional edge routes to finalize; every iteration stores a task list under
its cursor's key and advances the cursor by one; the edge chooses
`"finalize"` exactly when the cursor has reached the stub-list length, so
`n = 0` reaches finalize with zero iterations. -/
theorem C1_task_loop_runs_exactly_n_times
    (resp : Nat → Except String TaskGenData) (s : DecompositionState)
    (hok : ∀ i, ∃ d, resp i = Except.ok d)
    (hcur : s.current_subgoal_index = 0) :
    (∃ t, runTaskLoop resp (s.subgoals_list.length + 1) s =
        some (t, s.subgoals_list.length) ∧
      t.current_subgoal_index = s.subgoals_list.length ∧
      should_continue_task_generation t = "finalize" ∧
      ∀ i, i < s.subgoals_list.length →
        (dictGet (subgoalKey i) t.generated_tasks).isSome = true) ∧
    (∀ (u : DecompositionState) (d : TaskGenData),
      u.current_subgoal_index < u.subgoals_list.length →
      resp u.current_subgoal_index = Except.ok d →
      (generate_tasks_for_subgoal_node resp u).current_subgoal_index =
        u.current_subgoal_index + 1 ∧
      dictGet (subgoalKey u.current_subgoal_index)
        (generate_tasks_for_subgoal_node resp u).generated_tasks =
        some (d.tasks.getD [])) ∧
    (∀ u : DecompositionState,
      should_continue_task_generation u = "finalize" ↔
        u.subgoals_list.length ≤ u.current_subgoal_index) := by
  refine ⟨?_, ?_, should_continue_eq_finalize_iff⟩
  · obtain ⟨t, hrun, ht1, ht2, ht3, ht4⟩ :=
      runTaskLoop_all_ok resp hok s.subgoals_list.length s (by omega)
    refine ⟨t, hrun, by rw [ht1, ht2], ?_, ?_⟩
    · exact (should_continue_eq_finalize_iff t).mpr (by omega)
    · intro i hi
      exact ht4 i (by omega) hi
  · intro u d hlt hok'
    rw [gen_node_ok resp u d hlt hok']
    constructor
    · rfl
    · show dictGet _ (dictSet _ _ _) = _
      rw [dictGet_dictSet]
      simp

def C1respW : Nat → Except String TaskGenData :=
  fun _ => Except.ok { tasks := some [], confidence := some 5, rationale := some "" }

def C1stateW : DecompositionState :=
  { initial_state "Prepare for Nov 2 exam" "Academics" [] with
    subgoals_list :=
      [⟨some "Review material", none⟩, ⟨some "Practice problems", none⟩,
       ⟨some "Rest", none⟩, ⟨some "Prep", none⟩] }

/-- Witness for C1 at a concrete run with 4 stubs and an always-succeeding
task-generation stage. -/
theorem C1_witness :
    (∃ t, runTaskLoop C1respW (C1stateW.subgoals_list.length + 1) C1stateW =
        some (t, C1stateW.subgoals_list.length) ∧
      t.current_subgoal_index = C1stateW.subgoals_list.length ∧
      should_continue_task_generation t = "finalize" ∧
      ∀ i, i < C1stateW.subgoals_list.length →
        (dictGet (subgoalKey i) t.generated_tasks).isSome = true) ∧
    (∀ (u : DecompositionState) (d : TaskGenData),
      u.current_subgoal_index < u.subgoals_list.length →
      C1respW u.current_subgoal_index = Except.ok d →
      (generate_tasks_for_subgoal_node C1respW u).current_subgoal_index =
        u.current_subgoal_index + 1 ∧
      dictGet (subgoalKey u.current_subgoal_index)
        (generate_tasks_for_subgoal_node C1respW u).generated_tasks =
        some (d.tasks.getD [])) ∧
    (∀ u : DecompositionState,
      should_continue_task_generation u = "finalize" ↔
        u.subgoals_list.length ≤ u.current_subgoal_index) :=
  C1_task_loop_runs_exactly_n_times C1respW C1stateW (fun _ => ⟨_, rfl⟩) rfl

/-- Claim C2: when the task-generation stage fails at the current cursor
index, the node leaves the cursor, the generated-task map and the stub list
unchanged and only records an error note on the state; and since the cursor
does not advance, the loop retries the same index without bound (it never
stops, for any fuel). -/
theorem C2_failure_leaves_state_and_retries_forever
    (resp : Nat → Except String TaskGenData) (s : DecompositionState) (e : String)
    (hlt : s.current_subgoal_index < s.subgoals_list.length)
    (herr : resp s.current_subgoal_index = Except.error e) :
    generate_tasks_for_subgoal_node resp s =
      { s with error := "Task generation error: " ++ e } ∧
    (generate_tasks_for_subgoal_node resp s).current_subgoal_index =
      s.current_subgoal_index ∧
    (generate_tasks_for_subgoal_node resp s).generated_tasks = s.generated_tasks ∧
    (generate_tasks_for_subgoal_node resp s).subgoals_list = s.subgoals_list ∧
    (generate_tasks_for_subgoal_node resp s).error = "Task generation error: " ++ e ∧
    (∀ fuel, runTaskLoop resp fuel s = none) := by
  have h := gen_node_err resp s e hlt herr
  rw [h]
  exact ⟨rfl, rfl, rfl, rfl, rfl,
    fun fuel => runTaskLoop_stuck_on_failure resp e fuel s hlt herr⟩

def C2respW : Nat → Except String TaskGenData := fun _ => Except.error "boom"

def C2stateW : DecompositionState :=
  { initial_state "goal" "Academics" [] with
    subgoals_list := [⟨some "only stub", none⟩] }

/-- Witness for C2 at a concrete state whose single task-generation call
fails. -/
theorem C2_witness :
    generate_tasks_for_subgoal_node C2respW C2stateW =
      { C2stateW with error := "Task generation error: " ++ "boom" } ∧
    (generate_tasks_for_subgoal_node C2respW C2stateW).current_subgoal_index =
      C2stateW.current_subgoal_index ∧
    (generate_tasks_for_subgoal_node C2respW C2stateW).generated_tasks =
      C2stateW.generated_tasks ∧
    (generate_tasks_for_subgoal_node C2respW C2stateW).subgoals_list =
      C2stateW.subgoals_list ∧
    (generate_tasks_for_subgoal_node C2respW C2stateW).error =
      "Task generation error: " ++ "boom" ∧
    (∀ fuel, runTaskLoop C2respW fuel C2stateW = none) :=
  C2_failure_leaves_state_and_retries_forever C2respW C2stateW "boom"
    (by decide) rfl

/-- Claim C3: if the parse stage fails in any of its three ways (service
error; response whose trimmed text yields no JSON slice; slice that does not
decode), the node (a total function, so nothing escapes to the caller)
leaves the state with title = the raw goal text verbatim, description = "",
an error note beginning "Parse error: ", and confidence, rationale and the
rest of the state unchanged. -/
theorem C3_parse_failure_falls_back
    (svc : Except String String) (jparse : String → Option ParseData)
    (s : DecompositionState)
    (hfail : (∃ e, svc = Except.error e) ∨
      (∃ raw, svc = Except.ok raw ∧ find_json_slice (pyStrip raw) = none) ∨
      (∃ raw json_text, svc = Except.ok raw ∧
        find_json_slice (pyStrip raw) = some json_text ∧ jparse json_text = none)) :
    (parse_goal_node svc jparse s).parsed_goal_title = s.goal_text ∧
    (parse_goal_node svc jparse s).parsed_goal_description = "" ∧
    (∃ m, (parse_goal_node svc jparse s).error = "Parse error: " ++ m) ∧
    (parse_goal_node svc jparse s).confidence = s.confidence ∧
    (parse_goal_node svc jparse s).rationale = s.rationale ∧
    (parse_goal_node svc jparse s).goal_text = s.goal_text ∧
    (parse_goal_node svc jparse s).subgoals_list = s.subgoals_list ∧
    (parse_goal_node svc jparse s).generated_tasks = s.generated_tasks := by
  rcases hfail with ⟨e, he⟩ | ⟨raw, hraw, hslice⟩ | ⟨raw, json_text, hraw, hslice, hparse⟩
  · subst he
    exact ⟨rfl, rfl, ⟨e, rfl⟩, rfl, rfl, rfl, rfl, rfl⟩
  · subst hraw
    simp only [parse_goal_node, hslice]
    refine ⟨?_, ?_, ⟨"substring not found", ?_⟩, ?_, ?_, ?_, ?_, ?_⟩ <;> trivial
  · subst hraw
    simp only [parse_goal_node, hslice, hparse]
    refine ⟨?_, ?_, ⟨"invalid JSON", ?_⟩, ?_, ?_, ?_, ?_, ?_⟩ <;> trivial

def C3svcW : Except String String := Except.ok "Sorry, I cannot answer that."

def C3stateW : DecompositionState := initial_state "learn to jog" "Personal" []

/-- Witness for C3: a mocked response with no brace pair falls back to the
verbatim goal text. -/
theorem C3_witness :
    (parse_goal_node C3svcW (fun _ => none) C3stateW).parsed_goal_title =
      C3stateW.goal_text ∧
    (parse_goal_node C3svcW (fun _ => none) C3stateW).parsed_goal_description = "" ∧
    (∃ m, (parse_goal_node C3svcW (fun _ => none) C3stateW).error =
      "Parse error: " ++ m) ∧
    (parse_goal_node C3svcW (fun _ => none) C3stateW).confidence =
      C3stateW.confidence ∧
    (parse_goal_node C3svcW (fun _ => none) C3stateW).rationale =
      C3stateW.rationale ∧
    (parse_goal_node C3svcW (fun _ => none) C3stateW).goal_text =
      C3stateW.goal_text ∧
    (parse_goal_node C3svcW (fun _ => none) C3stateW).subgoals_list =
      C3stateW.subgoals_list ∧
    (parse_goal_node C3svcW (fun _ => none) C3stateW).generated_tasks =
      C3stateW.generated_tasks :=
  C3_parse_failure_falls_back C3svcW (fun _ => none) C3stateW
    (Or.inr (Or.inl ⟨"Sorry, I cannot answer that.", rfl, by decide⟩))

/-! ### Round-trip serialization (C4) -/

/-- Well-formedness established by the constructors of `models.py`: every id
is non-empty (a UUID string is never empty, and an empty id argument is
falsy, so it is replaced by a fresh UUID) — an empty id would be regenerated
on import by the `or` coercion. -/
def Subtask.WF (st : Subtask) : Prop := st.id ≠ ""

instance (st : Subtask) : Decidable st.WF := by
  unfold Subtask.WF
  infer_instance

/-- Task well-formedness: non-empty id, non-empty due (the constructor turns
a falsy due into the sentinel `"None"`), well-formed subtasks. -/
def Task.WF (t : Task) : Prop :=
  t.id ≠ "" ∧ t.due ≠ "" ∧ ∀ st ∈ t.subtasks, st.WF

instance (t : Task) : Decidable t.WF := by
  unfold Task.WF
  infer_instance

/-- Subgoal well-formedness: non-empty id, well-formed tasks. -/
def Subgoal.WF (sg : Subgoal) : Prop := sg.id ≠ "" ∧ ∀ t ∈ sg.tasks, t.WF

instance (sg : Subgoal) : Decidable sg.WF := by
  unfold Subgoal.WF
  infer_instance

/-- Goal well-formedness: non-empty id, well-formed subgoals. -/
def Goal.WF (g : Goal) : Prop := g.id ≠ "" ∧ ∀ sg ∈ g.subgoals, sg.WF

instance (g : Goal) : Decidable g.WF := by
  unfold Goal.WF
  infer_instance

theorem subtask_roundtrip (st : Subtask) (fresh : String) (h : st.WF) :
    Subtask.from_dict st.to_dict fresh = st := by
  have hid : st.id ≠ "" := h
  obtain ⟨id, pid, desc, done⟩ := st
  simp only [Subtask.from_dict, Subtask.to_dict, Subtask.init, pyOrS, Option.getD_some]
  simp_all

theorem subtask_list_roundtrip (l : List Subtask) (fresh : String)
    (h : ∀ st ∈ l, st.WF) :
    (l.map Subtask.to_dict).map (fun d => Subtask.from_dict d fresh) = l := by
  induction l with
  | nil => rfl
  | cons hd tl ih =>
    simp only [List.map_cons, List.cons.injEq]
    exact ⟨subtask_roundtrip hd fresh (h hd (by simp)),
      ih (fun st hst => h st (by simp [hst]))⟩

theorem task_roundtrip (t : Task) (fresh : String) (h : t.WF) :
    Task.from_dict t.to_dict fresh = t := by
  obtain ⟨hid, hdue, hsubs⟩ := h
  have hmap := subtask_list_roundtrip t.subtasks fresh hsubs
  obtain ⟨id, psg, pg, tk, due, started, done, subs, counted, est⟩ := t
  simp only [Task.from_dict, Task.to_dict, Task.init, pyOrS, Option.getD_some] at *
  simp_all

theorem task_list_roundtrip (l : List Task) (fresh : String)
    (h : ∀ t ∈ l, t.WF) :
    (l.map Task.to_dict).map (fun d => Task.from_dict d fresh) = l := by
  induction l with
  | nil => rfl
  | cons hd tl ih =>
    simp only [List.map_cons, List.cons.injEq]
    exact ⟨task_roundtrip hd fresh (h hd (by simp)),
      ih (fun t ht => h t (by simp [ht]))⟩

theorem subgoal_roundtrip (sg : Subgoal) (fresh : String) (h : sg.WF) :
    Subgoal.from_dict sg.to_dict fresh = sg := by
  obtain ⟨hid, htasks⟩ := h
  have hmap := task_list_roundtrip sg.tasks fresh htasks
  obtain ⟨id, pg, title, level, tasks, status⟩ := sg
  simp only [Subgoal.from_dict, Subgoal.to_dict, Subgoal.init, pyOrS, Option.getD_some] at *
  simp_all

theorem subgoal_list_roundtrip (l : List Subgoal) (fresh : String)
    (h : ∀ sg ∈ l, sg.WF) :
    (l.map Subgoal.to_dict).map (fun d => Subgoal.from_dict d fresh) = l := by
  induction l with
  | nil => rfl
  | cons hd tl ih =>
    simp only [List.map_cons, List.cons.injEq]
    exact ⟨subgoal_roundtrip hd fresh (h hd (by simp)),
      ih (fun sg hsg => h sg (by simp [hsg]))⟩

theorem goal_roundtrip (g : Goal) (fresh : String) (now : String) (h : g.WF) :
    Goal.from_dict g.to_dict fresh now = g := by
  obtain ⟨hid, hsubs⟩ := h
  have hmap := subgoal_list_roundtrip g.subgoals fresh hsubs
  obtain ⟨id, title, desc, subgoals, status, category, created_at, confidence, rationale⟩ := g
  simp only [Goal.from_dict, Goal.to_dict, Goal.init, pyOrS, Option.getD_some] at *
  simp_all

/-- Claim C4: for every well-formed entity of the four kinds, exporting to
its nested key-value representation and importing back reproduces an equal
entity graph — all fields (identifiers, back-references, status, category,
created-at timestamp, confidence, rationale and boolean flags) round-trip
exactly, recursively through the owned children. -/
theorem C4_export_import_is_identity
    (st : Subtask) (t : Task) (sg : Subgoal) (g : Goal) (fresh now : String)
    (hst : st.WF) (ht : t.WF) (hsg : sg.WF) (hg : g.WF) :
    Subtask.from_dict st.to_dict fresh = st ∧
    Task.from_dict t.to_dict fresh = t ∧
    Subgoal.from_dict sg.to_dict fresh = sg ∧
    Goal.from_dict g.to_dict fresh now = g :=
  ⟨subtask_roundtrip st fresh hst, task_roundtrip t fresh ht,
   subgoal_roundtrip sg fresh hsg, goal_roundtrip g fresh now hg⟩

def C4subtaskW : Subtask := { id := "u-st", parent_task_id := "u-t", description := "micro", done := true }

def C4taskW : Task :=
  { id := "u-t", parent_subgoal_id := "u-sg", parent_goal_id := "u-g", task := "read ch. 1"
    due := "None", started := true, done := false, subtasks := [C4subtaskW]
    counted := false, estimated_minutes := some 15 }

def C4subgoalW : Subgoal :=
  { id := "u-sg", parent_goal_id := "u-g", title := "Review", level := 1
    tasks := [C4taskW], status := "active" }

def C4goalW : Goal :=
  { id := "u-g", title := "Pass the exam", description := "score 90+"
    subgoals := [C4subgoalW], status := "active", category := "Academics"
    created_at := "2024-11-02T09:00:00", confidence := 8, rationale := "clear goal" }

/-- Witness for C4 at a concrete four-level entity graph. -/
theorem C4_witness :
    Subtask.from_dict C4subtaskW.to_dict "f" = C4subtaskW ∧
    Task.from_dict C4taskW.to_dict "f" = C4taskW ∧
    Subgoal.from_dict C4subgoalW.to_dict "f" = C4subgoalW ∧
    Goal.from_dict C4goalW.to_dict "f" "2025-01-01T00:00:00" = C4goalW :=
  C4_export_import_is_identity C4subtaskW C4taskW C4subgoalW C4goalW "f" "2025-01-01T00:00:00"
    (by decide) (by decide) (by decide) (by decide)

/-! ### Completion percentages (C5, C6) -/

/-- Claim C5: `Task.get_completion_percentage` yields 100 for a done task
with no subtasks, 0 for a not-done task with no subtasks, and otherwise
100 times the fraction of done subtasks — independent of the task's own
`done` flag. -/
theorem C5_task_completion_percentage (t : Task) :
    (t.subtasks = [] →
      t.get_completion_percentage = (if t.done then (100 : Rat) else 0)) ∧
    (t.subtasks ≠ [] →
      t.get_completion_percentage =
        100 * (((t.subtasks.filter (fun st => st.done)).length : Rat) /
          (t.subtasks.length : Rat)) ∧
      ∀ b, Task.get_completion_percentage { t with done := b } =
        t.get_completion_percentage) := by
  constructor
  · intro hempty
    unfold Task.get_completion_percentage
    rw [if_pos (by simp [hempty])]
  · intro hne
    constructor
    · unfold Task.get_completion_percentage
      rw [if_neg (by simp [hne])]
      ring
    · intro b
      unfold Task.get_completion_percentage
      rw [if_neg (by simp [hne]), if_neg (by simp [hne])]

def C5taskW : Task :=
  { id := "t", parent_subgoal_id := "sg", parent_goal_id := "g", task := "draft essay"
    due := "None", started := true, done := false
    subtasks := [⟨"s1", "t", "outline", true⟩, ⟨"s2", "t", "write", false⟩]
    counted := false, estimated_minutes := some 30 }

/-- Witness for C5 at a task with two subtasks, one done. -/
theorem C5_witness :
    C5taskW.get_completion_percentage =
      100 * (((C5taskW.subtasks.filter (fun st => st.done)).length : Rat) /
        (C5taskW.subtasks.length : Rat)) ∧
    ∀ b, Task.get_completion_percentage { C5taskW with done := b } =
      C5taskW.get_completion_percentage :=
  (C5_task_completion_percentage C5taskW).2 (by decide)

theorem filter_done_length_congr (l l' : List Task)
    (h : l.map (fun t => t.done) = l'.map (fun t => t.done)) :
    (l.filter (fun t => t.done)).length = (l'.filter (fun t => t.done)).length := by
  induction l generalizing l' with
  | nil =>
    cases l' with
    | nil => rfl
    | cons hd' tl' => simp at h
  | cons hd tl ih =>
    cases l' with
    | nil => simp at h
    | cons hd' tl' =>
      simp only [List.map_cons, List.cons.injEq] at h
      obtain ⟨h1, h2⟩ := h
      simp only [List.filter_cons, h1]
      by_cases hb : hd'.done = true <;> simp [hb, ih tl' h2]

/-- Claim C6: `Subgoal.get_completion_percentage` yields 0 for a subgoal
with no tasks and otherwise 100 times the fraction of tasks whose own
`done` flag is set; it depends only on the tasks' own `done` flags, so the
subtask-derived percentage of a task contributes nothing. -/
theorem C6_subgoal_completion_percentage (sg : Subgoal) :
    (sg.tasks = [] → sg.get_completion_percentage = 0) ∧
    (sg.tasks ≠ [] →
      sg.get_completion_percentage =
        100 * (((sg.tasks.filter (fun t => t.done)).length : Rat) /
          (sg.tasks.length : Rat))) ∧
    (∀ sg' : Subgoal,
      sg.tasks.map (fun t => t.done) = sg'.tasks.map (fun t => t.done) →
      sg.get_completion_percentage = sg'.get_completion_percentage) := by
  refine ⟨?_, ?_, ?_⟩
  · intro hempty
    unfold Subgoal.get_completion_percentage
    rw [if_pos (by simp [hempty])]
  · intro hne
    unfold Subgoal.get_completion_percentage
    rw [if_neg (by simp [hne])]
    ring
  · intro sg' h
    have hlen : sg.tasks.length = sg'.tasks.length := by
      have := congrArg List.length h
      simpa using this
    have hcnt := filter_done_length_congr sg.tasks sg'.tasks h
    unfold Subgoal.get_completion_percentage
    by_cases he : sg.tasks.isEmpty
    · have he' : sg'.tasks.isEmpty = true := by
        rw [List.isEmpty_iff_length_eq_zero] at *
        omega
      rw [if_pos he, if_pos he']
    · have he' : ¬ sg'.tasks.isEmpty = true := by
        rw [List.isEmpty_iff_length_eq_zero] at *
        omega
      rw [if_neg he, if_neg he', hcnt, hlen]

def C6taskDoneW : Task :=
  { id := "t1", parent_subgoal_id := "sg", parent_goal_id := "g", task := "done one"
    due := "None", started := true, done := true, subtasks := []
    counted := false, estimated_minutes := none }

def C6taskMostlyW : Task :=
  { id := "t2", parent_subgoal_id := "sg", parent_goal_id := "g", task := "almost there"
    due := "None", started := true, done := false
    subtasks := [⟨"s1", "t2", "a", true⟩, ⟨"s2", "t2", "b", true⟩,
      ⟨"s3", "t2", "c", true⟩, ⟨"s4", "t2", "d", false⟩]
    counted := false, estimated_minutes := none }

def C6subgoalW : Subgoal :=
  { id := "sg", parent_goal_id := "g", title := "S", level := 1
    tasks := [C6taskDoneW, C6taskMostlyW], status := "active" }

def C6subgoalPrunedW : Subgoal :=
  { id := "sg2", parent_goal_id := "g", title := "S no subtasks", level := 1
    tasks := [C6taskDoneW, { C6taskMostlyW with subtasks := [] }], status := "active" }

/-- Witness for C6: a subgoal with one done task and one task that is 3/4
done by subtasks scores 50%, and stripping the subtasks changes nothing. -/
theorem C6_witness :
    (C6subgoalW.get_completion_percentage =
      100 * (((C6subgoalW.tasks.filter (fun t => t.done)).length : Rat) /
        (C6subgoalW.tasks.length : Rat))) ∧
    C6subgoalW.get_completion_percentage =
      C6subgoalPrunedW.get_completion_percentage :=
  ⟨(C6_subgoal_completion_percentage C6subgoalW).2.1 (by decide),
   (C6_subgoal_completion_percentage C6subgoalW).2.2 C6subgoalPrunedW (by decide)⟩

/-! ### Status recomputation (C7) -/

theorem subgoal_update_status_empty (u : Subgoal) (hu : u.tasks = []) :
    (u.update_status).status = "active" := by
  unfold Subgoal.update_status
  rw [if_pos (by simp [hu])]

theorem subgoal_update_status_completed_iff (u : Subgoal) (hu : u.tasks ≠ []) :
    (u.update_status).status = "completed" ↔ ∀ t ∈ u.tasks, t.done = true := by
  unfold Subgoal.update_status
  rw [if_neg (by simp [hu])]
  by_cases hall : u.tasks.all (fun t => t.done) = true
  · rw [if_pos hall]
    exact iff_of_true rfl (by simpa using List.all_eq_true.mp hall)
  · have hfalse : ¬ ∀ t ∈ u.tasks, t.done = true := by
      intro hforall
      exact hall (List.all_eq_true.mpr (by simpa using hforall))
    rw [if_neg hall]
    by_cases hany : u.tasks.any (fun t => t.started) = true
    · rw [if_pos hany]
      exact iff_of_false (show ¬ ("active" : String) = "completed" by decide) hfalse
    · rw [if_neg hany]
      exact iff_of_false (show ¬ ("active" : String) = "completed" by decide) hfalse

theorem subgoal_update_status_not_paused (u : Subgoal) :
    (u.update_status).status ≠ "paused" := by
  unfold Subgoal.update_status
  split
  · show ("active" : String) ≠ "paused"
    decide
  · split
    · show ("completed" : String) ≠ "paused"
      decide
    · split
      · show ("active" : String) ≠ "paused"
        decide
      · show ("active" : String) ≠ "paused"
        decide

theorem goal_update_status_empty (g : Goal) (hg : g.subgoals = []) :
    (g.update_status).status = "active" := by
  unfold Goal.update_status
  rw [if_pos (by simp [hg])]

theorem goal_update_status_completed_iff (g : Goal) (hg : g.subgoals ≠ []) :
    (g.update_status).subgoals = g.subgoals.map Subgoal.update_status ∧
    ((g.update_status).status = "completed" ↔
      ∀ s ∈ g.subgoals, (Subgoal.update_status s).status = "completed") := by
  unfold Goal.update_status
  rw [if_neg (by simp [hg])]
  by_cases hall : (g.subgoals.map Subgoal.update_status).all
      (fun sg => sg.status = "completed") = true
  · rw [if_pos hall]
    refine ⟨rfl, iff_of_true rfl ?_⟩
    intro s hs
    have := List.all_eq_true.mp hall (Subgoal.update_status s) (List.mem_map_of_mem _ hs)
    simpa using this
  · have hfalse : ¬ ∀ s ∈ g.subgoals, (Subgoal.update_status s).status = "completed" := by
      intro hforall
      refine hall (List.all_eq_true.mpr ?_)
      intro x hx
      obtain ⟨s, hs, rfl⟩ := List.mem_map.mp hx
      simpa using hforall s hs
    rw [if_neg hall]
    by_cases hany : (g.subgoals.map Subgoal.update_status).any
        (fun sg => sg.status = "active") = true
    · rw [if_pos hany]
      exact ⟨rfl, iff_of_false (show ¬ ("active" : String) = "completed" by decide) hfalse⟩
    · rw [if_neg hany]
      exact ⟨rfl, iff_of_false (show ¬ ("active" : String) = "completed" by decide) hfalse⟩

theorem goal_update_status_not_paused (g : Goal) :
    (g.update_status).status ≠ "paused" := by
  unfold Goal.update_status
  split
  · show ("active" : String) ≠ "paused"
    decide
  · split
    · show ("completed" : String) ≠ "paused"
      decide
    · split
      · show ("active" : String) ≠ "paused"
        decide
      · show ("active" : String) ≠ "paused"
        decide

/-- Claim C7, amended: `Goal.update_status` recomputes every child subgoal
first and derives only "active"/"completed" ("paused" is never produced);
a goal with no subgoals, or a subgoal with no tasks, recomputes to "active";
with at least one subgoal, the goal is "completed" exactly when every
recomputed child is "completed"; a subgoal with at least one task is
"completed" exactly when all its tasks are done; hence a goal with at least
one subgoal, each holding at least one task, all of them done, ends
"completed" — but a goal whose leaf tasks are all (vacuously) done because
some subgoal is empty, or because it has no subgoals, ends "active". -/
theorem C7_status_recompute_amended (g : Goal) (sg : Subgoal) :
    (g.subgoals = [] → (g.update_status).status = "active") ∧
    (g.subgoals ≠ [] →
      (g.update_status).subgoals = g.subgoals.map Subgoal.update_status ∧
      ((g.update_status).status = "completed" ↔
        ∀ s ∈ g.subgoals, (Subgoal.update_status s).status = "completed")) ∧
    (sg.tasks = [] → (sg.update_status).status = "active") ∧
    (sg.tasks ≠ [] →
      ((sg.update_status).status = "completed" ↔ ∀ t ∈ sg.tasks, t.done = true)) ∧
    ((g.update_status).status ≠ "paused" ∧ (sg.update_status).status ≠ "paused") ∧
    (g.subgoals ≠ [] →
      (∀ s ∈ g.subgoals, s.tasks ≠ [] ∧ ∀ t ∈ s.tasks, t.done = true) →
      (g.update_status).status = "completed") := by
  refine ⟨goal_update_status_empty g, goal_update_status_completed_iff g,
    subgoal_update_status_empty sg, subgoal_update_status_completed_iff sg,
    ⟨goal_update_status_not_paused g, subgoal_update_status_not_paused sg⟩, ?_⟩
  intro hg hdone
  refine ((goal_update_status_completed_iff g hg).2).mpr ?_
  intro s hs
  exact (subgoal_update_status_completed_iff s (hdone s hs).1).mpr (hdone s hs).2

def C7goalVacuousW : Goal :=
  { id := "g", title := "G", description := ""
    subgoals := [⟨"s", "g", "S", 1, [], "active"⟩]
    status := "active", category := "Academics"
    created_at := "2024-01-01T00:00:00", confidence := 5, rationale := "" }

/-- Counterexample to C7 as stated: a goal whose single subgoal has no
tasks — every leaf task is (vacuously) done, yet `update_status` leaves the
goal "active", not "completed". -/
theorem C7_counterexample :
    (∀ s ∈ C7goalVacuousW.subgoals, ∀ t ∈ s.tasks, t.done = true) ∧
    (C7goalVacuousW.update_status).status = "active" ∧
    ("active" : String) ≠ "completed" := by
  refine ⟨by decide, by decide, by decide⟩

def C7taskDoneW : Task :=
  { id := "t7", parent_subgoal_id := "s", parent_goal_id := "g", task := "finish it"
    due := "None", started := true, done := true, subtasks := []
    counted := false, estimated_minutes := none }

def C7goalDoneW : Goal :=
  { C7goalVacuousW with
    subgoals := [⟨"s", "g", "S", 1, [C7taskDoneW], "active"⟩] }

/-- Witness for the amended C7 at a concrete goal with one subgoal holding
one done task. -/
theorem C7_witness :
    (C7goalDoneW.update_status).status = "completed" :=
  (C7_status_recompute_amended C7goalDoneW ⟨"s", "g", "S", 1, [], "active"⟩).2.2.2.2.2
    (by decide) (by decide)

/-! ### Tree rendering connectors (C8) -/

/-- Claim C8, amended: the rendering distinguishes the last child from a
middle child at the task level and at the subtask level (the terminating
connector differs from the tee connector in every case), but at the subgoal
level every subgoal — the last one included — is rendered with the same
non-terminating tee connector, leaving a trailing connector artifact on the
final subgoal of the list. -/
theorem C8_tree_connectors_amended (g : Goal) (sg : Subgoal) (hsg : sg ∈ g.subgoals) :
    ("  ├─ 🔹 " ++ sg.title ++ " (" ++ toString sg.tasks.length ++ " tasks)")
      ∈ visualize_goal_tree_lines g ∧
    taskConnector true ≠ taskConnector false ∧
    (∀ b, subtaskConnector b true ≠ subtaskConnector b false) ∧
    taskConnector true = "  │  └─" ∧
    taskConnector false = "  │  ├─" ∧
    subtaskConnector true true = "     └─" ∧
    subtaskConnector false true = "  │  │  └─" := by
  refine ⟨?_, by decide, ?_, rfl, rfl, rfl, rfl⟩
  · unfold visualize_goal_tree_lines
    refine List.mem_cons_of_mem _ ?_
    refine List.mem_flatMap.mpr ⟨sg, hsg, ?_⟩
    unfold renderSubgoal
    exact List.mem_cons_self _ _
  · intro b
    cases b <;> decide

def C8goalW : Goal :=
  { id := "g", title := "G", description := ""
    subgoals := [⟨"sa", "g", "A", 1, [], "active"⟩, ⟨"sb", "g", "B", 1, [], "active"⟩]
    status := "active", category := "Academics"
    created_at := "2024-01-01T00:00:00", confidence := 5, rationale := "" }

/-- Counterexample to C8 as stated: rendering a goal with two subgoals
produces the same 4-character tee connector on the middle and on the last
subgoal line, and no line of the output carries a terminating subgoal
connector — the last child of the subgoal sibling list is not distinguished. -/
theorem C8_counterexample :
    visualize_goal_tree_lines C8goalW =
      ["🎯 G [0% complete]", "  ├─ 🔹 A (0 tasks)", "  ├─ 🔹 B (0 tasks)"] ∧
    ("  ├─ 🔹 A (0 tasks)").toList.take 4 = ("  ├─ 🔹 B (0 tasks)").toList.take 4 ∧
    (∀ line ∈ visualize_goal_tree_lines C8goalW,
      ("  └─").toList.isPrefixOf line.toList = false) := by
  have h1 : visualize_goal_tree_lines C8goalW =
      ["🎯 G [0% complete]", "  ├─ 🔹 A (0 tasks)", "  ├─ 🔹 B (0 tasks)"] := by
    decide
  refine ⟨h1, by decide, ?_⟩
  rw [h1]
  decide

def C8goalTasksW : Goal :=
  { C8goalW with
    subgoals :=
      [⟨"sa", "g", "A", 1,
        [{ id := "t1", parent_subgoal_id := "sa", parent_goal_id := "g", task := "first"
           due := "None", started := false, done := false, subtasks := []
           counted := false, estimated_minutes := some 5 },
         { id := "t2", parent_subgoal_id := "sa", parent_goal_id := "g", task := "second"
           due := "None", started := false, done := true, subtasks := []
           counted := false, estimated_minutes := some 10 }], "active"⟩] }

/-- Witness for the amended C8 at a concrete goal, checking that the last
subgoal's line is present with the tee connector. -/
theorem C8_witness :
    ("  ├─ 🔹 " ++ "A" ++ " (" ++ toString (2 : Nat) ++ " tasks)")
      ∈ visualize_goal_tree_lines C8goalTasksW ∧
    taskConnector true ≠ taskConnector false ∧
    (∀ b, subtaskConnector b true ≠ subtaskConnector b false) ∧
    taskConnector true = "  │  └─" ∧
    taskConnector false = "  │  ├─" ∧
    subtaskConnector true true = "     └─" ∧
    subtaskConnector false true = "  │  │  └─" :=
  C8_tree_connectors_amended C8goalTasksW
    ⟨"sa", "g", "A", 1,
      [{ id := "t1", parent_subgoal_id := "sa", parent_goal_id := "g", task := "first"
         due := "None", started := false, done := false, subtasks := []
         counted := false, estimated_minutes := some 5 },
       { id := "t2", parent_subgoal_id := "sa", parent_goal_id := "g", task := "second"
         due := "None", started := false, done := true, subtasks := []
         counted := false, estimated_minutes := some 10 }], "active"⟩
    (by decide)

/-! ### Category boundary (C9) -/

/-- The category enumeration named by the specification's boundary contract. -/
def allowed_categories : List String :=
  ["Academics", "Personal", "Hobbies", "Future/Long-term Goals"]

theorem finalize_foldl_category (l : List (Nat × SubgoalStub))
    (s : DecompositionState) (fresh : String) :
    ∀ g : Goal,
      (l.foldl (fun g p =>
        let sg := finalize_build_subgoal g.id fresh p.1 p.2
          ((dictGet (subgoalKey p.1) s.generated_tasks).getD [])
        { g with subgoals := g.subgoals ++ [sg] }) g).category = g.category := by
  induction l with
  | nil => intro g; rfl
  | cons hd tl ih =>
    intro g
    rw [List.foldl_cons]
    exact ih _

/-- Claim C9, amended: no validation happens at the public boundary — the
category argument of the pipeline entry flows verbatim into the initial
state, the finalize node copies the state's category verbatim onto the
produced Goal, and `Goal.__init__` stores whatever category string it is
given (its only defaulting is `"Academics"` when the argument is omitted);
a value outside the enumerated set is therefore stored silently. -/
theorem C9_category_stored_verbatim_amended
    (s : DecompositionState) (fresh now goal_text category : String)
    (feedback : List String) (title description status : String)
    (subgoals : Option (List Subgoal)) (created_at goal_id : Option String)
    (confidence : Int) (rationale : String) :
    ((finalize_goal_node fresh now s).final_goal.map Goal.category) = some s.category ∧
    (initial_state goal_text category feedback).category = category ∧
    (Goal.init title description subgoals status category created_at goal_id
      confidence rationale fresh now).category = category := by
  refine ⟨?_, rfl, rfl⟩
  have h := finalize_foldl_category s.subgoals_list.enum s fresh
    (Goal.init s.parsed_goal_title s.parsed_goal_description none "active"
      s.category none none s.confidence s.rationale fresh now)
  exact congrArg some h

def C9stateW : DecompositionState := initial_state "plan a trip" "Bogus" []

/-- Counterexample to C9 as stated: the category "Bogus", outside the
enumerated set, is accepted at the pipeline entry, survives finalization
onto the produced Goal, and is stored verbatim by `Goal.__init__` — it is
neither rejected nor coerced. -/
theorem C9_counterexample :
    C9stateW.category = "Bogus" ∧
    ((finalize_goal_node "u" "2024-01-01T00:00:00" C9stateW).final_goal.map
      Goal.category) = some "Bogus" ∧
    (Goal.init "T" "" none "active" "Bogus" none none 5 "" "u"
      "2024-01-01T00:00:00").category = "Bogus" ∧
    ¬ "Bogus" ∈ allowed_categories := by
  exact ⟨rfl, by decide, rfl, by decide⟩

/-- Witness for the amended C9 at a concrete state carrying the category
"Bogus". -/
theorem C9_witness :
    ((finalize_goal_node "u" "2024-01-01T00:00:00"
        (initial_state "plan a trip" "Hobbies" [])).final_goal.map Goal.category) =
      some (initial_state "plan a trip" "Hobbies" []).category ∧
    (initial_state "plan a trip" "Hobbies" []).category = "Hobbies" ∧
    (Goal.init "T" "" none "active" "Hobbies" none none 5 "" "u"
      "2024-01-01T00:00:00").category = "Hobbies" :=
  C9_category_stored_verbatim_amended (initial_state "plan a trip" "Hobbies" [])
    "u" "2024-01-01T00:00:00" "plan a trip" "Hobbies" [] "T" "" "active"
    none none none 5 ""

/-! ### The due sentinel (C10) -/

/-- Claim C10: a Task's stored `due` is never the null value — a missing,
null or empty due argument is coerced to the sentinel string `"None"` at
construction (directly, via `Subgoal.add_task` without a due date, and via
`Task.from_dict` on a dict whose due slot is missing or null), a non-empty
due string is kept verbatim, serialization always writes a non-null due,
and every flattened legacy record's due is the owning task's due string. -/
theorem C10_due_never_null
    (tk psg pg : String) (started done counted : Bool)
    (subtasks : Option (List Subtask)) (est : Option Int)
    (task_id : Option String) (fresh : String) (d : String) (hd : d ≠ "")
    (sg : Subgoal) (desc : String) (dict : TaskDict) (g : Goal) :
    (Task.init tk psg pg none started done subtasks counted est task_id fresh).due =
      "None" ∧
    (Task.init tk psg pg (some "") started done subtasks counted est task_id fresh).due =
      "None" ∧
    (Task.init tk psg pg (some d) started done subtasks counted est task_id fresh).due =
      d ∧
    ((sg.add_task desc none est fresh).2).due = "None" ∧
    (dict.due = none → (Task.from_dict dict fresh).due = "None") ∧
    (∀ t : Task, (t.to_dict).due = some t.due) ∧
    (∀ r ∈ flatten_goal_to_legacy_tasks g,
      ∃ s ∈ g.subgoals, ∃ t ∈ s.tasks, r.due = t.due) := by
  refine ⟨rfl, rfl, ?_, rfl, ?_, fun t => rfl, ?_⟩
  · show (if d = "" then "None" else d) = d
    rw [if_neg hd]
  · intro h
    show pyOrS dict.due "None" = "None"
    rw [h]
    rfl
  · intro r hr
    unfold flatten_goal_to_legacy_tasks at hr
    obtain ⟨s, hs, hr2⟩ := List.mem_flatMap.mp hr
    obtain ⟨t, ht, rfl⟩ := List.mem_map.mp hr2
    exact ⟨s, hs, t, ht, rfl⟩

def C10taskW : Task :=
  Task.init "submit form" "sg" "g" (some "2024-12-01") false false none false none
    none "u-t10"

def C10goalW : Goal :=
  { id := "g10", title := "G", description := ""
    subgoals := [⟨"sg10", "g10", "S", 1, [C10taskW], "active"⟩]
    status := "active", category := "Personal"
    created_at := "2024-01-01T00:00:00", confidence := 5, rationale := "" }

def C10dictW : TaskDict :=
  { id := some "u"
    parent_subgoal_id := "sg"
    parent_goal_id := "g"
    task := "x"
    due := none
    started := none
    done := none
    subtasks := none
    counted := none
    estimated_minutes := none }

def C10subgoalW : Subgoal := ⟨"sg10", "g10", "S", 1, [C10taskW], "active"⟩

/-- Witness for C10 at concrete constructions. -/
theorem C10_witness :
    (Task.init "write" "sg" "g" none false false none false none none "f").due =
      "None" ∧
    (Task.init "write" "sg" "g" (some "") false false none false none none "f").due =
      "None" ∧
    (Task.init "write" "sg" "g" (some "2024-12-01") false false none false none none
      "f").due = "2024-12-01" ∧
    ((C10subgoalW.add_task "call" none none "f").2).due = "None" ∧
    (C10dictW.due = none → (Task.from_dict C10dictW "f").due = "None") ∧
    (∀ t : Task, (t.to_dict).due = some t.due) ∧
    (∀ r ∈ flatten_goal_to_legacy_tasks C10goalW,
      ∃ s ∈ C10goalW.subgoals, ∃ t ∈ s.tasks, r.due = t.due) :=
  C10_due_never_null "write" "sg" "g" false false false none none none "f"
    "2024-12-01" (by decide) C10subgoalW "call" C10dictW C10goalW

end AIGoalMentor
